import Mathlib

/-!
Verification development for the watchdog service registry.

The definitions below are a shallow embedding of the registry core:

* `src/ent/schema/service.go` — the record schema and its validation rules
  (field constraints and the closed `type` enumeration stored by the record
  store);
* `src/database/interface.go` — the `EntClient` store operations
  (`CreateService`, `GetService`, `ListServices`, `UpdateService`,
  `DeleteService`, `LogHealthCheck`) and the `WatchdogServer` operations
  (`GetHealth`, `RegisterService`, `UnregisterService`, `ListServices`,
  `UpdateService`, `CheckServiceHealth`) together with the enum conversion
  helpers (`stringToServiceType`, `serviceTypeToString`,
  `apiToEntServiceType`).

Machine integers (`int64` ids) are modelled as `Int`; timestamps as `Nat`
(Unix seconds).  Store errors are carried as the `err.Error()` strings the
Go code produces, because the server dispatches on string equality with
"service not found".  Outbound probes (HTTP GET, systemctl) are modelled by
an explicit outcome parameter.  Each server operation returns, besides its
result and the new store state, the list of store operations it performed.
-/

namespace Watchdog

/-- Modelled from the spec: the generated protobuf code for the wire-level
`ServiceType` enumeration (package `watchdog/api`) is not part of the
source tree; the spec lists the eleven values in wire order
`UNSPECIFIED, HTTP, GRPC, DATABASE, CACHE, QUEUE, STORAGE, EXTERNAL_API,
MICROSERVICE, OTHER, SYSTEMD`, so the numeric values are 0..10. -/
inductive ApiServiceType where
  | unspecified
  | http
  | grpc
  | database
  | cache
  | queue
  | storage
  | externalApi
  | microservice
  | other
  | systemd
deriving DecidableEq, BEq, Repr

/-- Modelled from the spec: numeric wire value of each enum member,
following the spec's listing order (protobuf enums number from 0). -/
def ApiServiceType.toNat : ApiServiceType → Nat
  | .unspecified => 0
  | .http => 1
  | .grpc => 2
  | .database => 3
  | .cache => 4
  | .queue => 5
  | .storage => 6
  | .externalApi => 7
  | .microservice => 8
  | .other => 9
  | .systemd => 10

/-- All eleven wire-level service types. -/
def allApiTypes : List ApiServiceType :=
  [.unspecified, .http, .grpc, .database, .cache, .queue, .storage,
   .externalApi, .microservice, .other, .systemd]

/-- A service record (`ent.Service` / `database.ServiceRecord`).
`type` is the store-level string (the ent code generates `Type` as a string
type whose constants are the schema enum values). -/
structure ServiceRecord where
  id : Int
  name : String
  endpoint : String
  type : String
  status : String
  lastHeartbeat : Nat
  createdAt : Nat
  updatedAt : Nat
deriving DecidableEq, Repr

/-- The record store state: the stored records in insertion order plus the
AUTO_INCREMENT counter for the next id. -/
structure DB where
  services : List ServiceRecord
  nextId : Int
deriving DecidableEq, Repr

/-- A fresh store: no records, auto-increment starts at 1. -/
def DB.empty : DB := ⟨[], 1⟩

/-- The ten values of the `type` enum in `src/ent/schema/service.go`
(`field.Enum("type").Values(...)`).  Note the schema does NOT list
`SERVICE_TYPE_SYSTEMD`. -/
def schemaTypeValues : List String :=
  ["SERVICE_TYPE_UNSPECIFIED",
   "SERVICE_TYPE_HTTP",
   "SERVICE_TYPE_GRPC",
   "SERVICE_TYPE_DATABASE",
   "SERVICE_TYPE_CACHE",
   "SERVICE_TYPE_QUEUE",
   "SERVICE_TYPE_STORAGE",
   "SERVICE_TYPE_EXTERNAL_API",
   "SERVICE_TYPE_MICROSERVICE",
   "SERVICE_TYPE_OTHER"]

/-- `stringToServiceType` from `src/database/interface.go`: store-level type
string to wire enum, defaulting to `UNSPECIFIED`. -/
def stringToServiceType (serviceType : String) : ApiServiceType :=
  if serviceType == "SERVICE_TYPE_HTTP" then .http
  else if serviceType == "SERVICE_TYPE_GRPC" then .grpc
  else if serviceType == "SERVICE_TYPE_DATABASE" then .database
  else if serviceType == "SERVICE_TYPE_CACHE" then .cache
  else if serviceType == "SERVICE_TYPE_QUEUE" then .queue
  else if serviceType == "SERVICE_TYPE_STORAGE" then .storage
  else if serviceType == "SERVICE_TYPE_EXTERNAL_API" then .externalApi
  else if serviceType == "SERVICE_TYPE_MICROSERVICE" then .microservice
  else if serviceType == "SERVICE_TYPE_OTHER" then .other
  else if serviceType == "SERVICE_TYPE_SYSTEMD" then .systemd
  else .unspecified

/-- `serviceTypeToString` from `src/database/interface.go`. -/
def serviceTypeToString : ApiServiceType → String
  | .http => "SERVICE_TYPE_HTTP"
  | .grpc => "SERVICE_TYPE_GRPC"
  | .database => "SERVICE_TYPE_DATABASE"
  | .cache => "SERVICE_TYPE_CACHE"
  | .queue => "SERVICE_TYPE_QUEUE"
  | .storage => "SERVICE_TYPE_STORAGE"
  | .externalApi => "SERVICE_TYPE_EXTERNAL_API"
  | .microservice => "SERVICE_TYPE_MICROSERVICE"
  | .other => "SERVICE_TYPE_OTHER"
  | .systemd => "SERVICE_TYPE_SYSTEMD"
  | .unspecified => "SERVICE_TYPE_UNSPECIFIED"

/-- `apiToEntServiceType` from `src/database/interface.go`: wire enum to the
ent `service.Type` constant (the constant's value is the enum name string;
the `SYSTEMD` arm references `service.TypeSERVICE_TYPE_SYSTEMD`, whose value
by the ent naming scheme is the string "SERVICE_TYPE_SYSTEMD"). -/
def apiToEntServiceType : ApiServiceType → String
  | .http => "SERVICE_TYPE_HTTP"
  | .grpc => "SERVICE_TYPE_GRPC"
  | .database => "SERVICE_TYPE_DATABASE"
  | .cache => "SERVICE_TYPE_CACHE"
  | .queue => "SERVICE_TYPE_QUEUE"
  | .storage => "SERVICE_TYPE_STORAGE"
  | .externalApi => "SERVICE_TYPE_EXTERNAL_API"
  | .microservice => "SERVICE_TYPE_MICROSERVICE"
  | .other => "SERVICE_TYPE_OTHER"
  | .systemd => "SERVICE_TYPE_SYSTEMD"
  | .unspecified => "SERVICE_TYPE_UNSPECIFIED"

/-- The expression `service.Type(req.Type)` in `RegisterService`
(`src/database/interface.go` line 306): a Go conversion from the int32-based
wire enum to the string-based `service.Type`, which yields the one-rune
string of the enum's numeric code point, not the enum's name. -/
def serviceTypeCast (t : ApiServiceType) : String :=
  String.singleton (Char.ofNat t.toNat)

/-- Digit-string accumulator for `parseInt64` (base 10). -/
def digitsVal : List Char → Nat → Option Nat
  | [], acc => some acc
  | c :: rest, acc =>
      if c.isDigit then digitsVal rest (acc * 10 + (c.toNat - 48)) else none

/-- `strconv.ParseInt(s, 10, 64)`: optional sign, then one or more decimal
digits, result within the int64 range; `none` models a non-nil error
(syntax error or range overflow). -/
def parseInt64 (s : String) : Option Int :=
  match s.data with
  | [] => none
  | c :: rest =>
      if c == '-' then
        match rest with
        | [] => none
        | _ =>
          match digitsVal rest 0 with
          | some n => if n ≤ 2 ^ 63 then some (-(n : Int)) else none
          | none => none
      else if c == '+' then
        match rest with
        | [] => none
        | _ =>
          match digitsVal rest 0 with
          | some n => if n ≤ 2 ^ 63 - 1 then some (n : Int) else none
          | none => none
      else
        match digitsVal (c :: rest) 0 with
        | some n => if n ≤ 2 ^ 63 - 1 then some (n : Int) else none
        | none => none

/-- Field validation performed by the generated ent code on create/update,
as declared in `src/ent/schema/service.go`: `name` NotEmpty MaxLen 255,
`endpoint` NotEmpty MaxLen 500, `type` one of the schema enum values,
`status` MaxLen 50. -/
def validServiceFields (name endpoint ty st : String) : Bool :=
  name != "" && decide (name.length ≤ 255) &&
  endpoint != "" && decide (endpoint.length ≤ 500) &&
  schemaTypeValues.contains ty &&
  decide (st.length ≤ 50)

/-- Lookup a record by id (`ent` get-by-primary-key). -/
def DB.findById (db : DB) (i : Int) : Option ServiceRecord :=
  db.services.find? (fun r => r.id == i)

/-- Whether a record other than `exceptId` already holds the (name, endpoint)
pair — the unique index declared in the schema. -/
def DB.nameEndpointTaken (db : DB) (exceptId : Int) (name endpoint : String) :
    Bool :=
  db.services.any
    (fun r => !(r.id == exceptId) && r.name == name && r.endpoint == endpoint)

/-- `EntClient.CreateService`: validates the fields (ent validators from the
schema) and the (name, endpoint) unique index, assigns the next id, stamps
`createdAt`/`updatedAt` with the current time, and appends the record.
Errors are the `err.Error()` strings (all wrapped with
"failed to create service: "). -/
def DB.createService (db : DB) (r : ServiceRecord) (now : Nat) :
    Except String (Int × DB) :=
  if !(validServiceFields r.name r.endpoint r.type r.status) then
    .error "failed to create service: validator failed"
  else if db.nameEndpointTaken 0 r.name r.endpoint then
    .error "failed to create service: duplicate key"
  else
    .ok (db.nextId,
      ⟨db.services ++
        [⟨db.nextId, r.name, r.endpoint, r.type, r.status,
          r.lastHeartbeat, now, now⟩],
       db.nextId + 1⟩)

/-- `EntClient.GetService`: returns the record or the error string
"service not found". -/
def DB.getService (db : DB) (i : Int) : Except String ServiceRecord :=
  match db.findById i with
  | some r => .ok r
  | none => .error "service not found"

/-- `EntClient.DeleteService`: removes the record with the given id, or
fails with "service not found". -/
def DB.deleteService (db : DB) (i : Int) : Except String DB :=
  match db.findById i with
  | some _ => .ok ⟨db.services.filter (fun r => !(r.id == i)), db.nextId⟩
  | none => .error "service not found"

/-- `EntClient.UpdateService`: fetches the current record (wrapping a
missing record as "service not found: service not found" — note the wrap,
`fmt.Errorf("service not found: %w", err)`), substitutes the current values
for empty `name`/`endpoint`/`type` parameters, then performs a full update
setting `status`, `name`, `endpoint`, `type` and `lastHeartbeat = now`
(`updatedAt` refreshed by the schema's update default). -/
def DB.updateService (db : DB) (i : Int)
    (newStatus name ty endpoint : String) (now : Nat) : Except String DB :=
  match db.findById i with
  | none => .error "service not found: service not found"
  | some cur =>
      let updName := if name == "" then cur.name else name
      let updEndpoint := if endpoint == "" then cur.endpoint else endpoint
      let updTy := if ty == "" then cur.type else ty
      if !(validServiceFields updName updEndpoint updTy newStatus) then
        .error "failed to update service: validator failed"
      else if db.nameEndpointTaken i updName updEndpoint then
        .error "failed to update service: duplicate key"
      else
        .ok ⟨db.services.map
              (fun r =>
                if r.id == i then
                  { r with
                    status := newStatus, name := updName,
                    endpoint := updEndpoint, type := updTy,
                    lastHeartbeat := now, updatedAt := now }
                else r),
             db.nextId⟩

/-- Records created later come first: `ORDER BY created_at DESC`. -/
def createdGe (a b : ServiceRecord) : Prop := b.createdAt ≤ a.createdAt

instance : DecidableRel createdGe := fun a b => Nat.decLe b.createdAt a.createdAt

instance : IsTotal ServiceRecord createdGe :=
  ⟨fun a b => Nat.le_total b.createdAt a.createdAt⟩

instance : IsTrans ServiceRecord createdGe :=
  ⟨fun _ _ _ hab hbc => Nat.le_trans hbc hab⟩

/-- `EntClient.ListServices`: all records ordered by creation time
descending (newest first). -/
def DB.listServices (db : DB) : List ServiceRecord :=
  List.insertionSort createdGe db.services

/-- gRPC status codes used by the server. -/
inductive Code where
  | invalidArgument
  | notFound
  | internal
deriving DecidableEq, Repr

/-- A call-level error: gRPC status code plus message. -/
structure GrpcErr where
  code : Code
  msg : String
deriving DecidableEq, Repr

/-- A store operation performed during a server call. -/
inductive StoreOp where
  | create
  | get
  | list
  | update
  | delete
deriving DecidableEq, Repr

/-- Result of one server operation: the returned value or call-level error,
the store state after the call, and the store operations performed. -/
structure OpResult (α : Type) where
  result : Except GrpcErr α
  db : DB
  trace : List StoreOp

/-- `api.RegisterServiceResponse`. -/
structure RegisterServiceResponse where
  serviceId : String
  message : String
deriving DecidableEq, Repr

/-- `api.UnregisterServiceResponse`. -/
structure UnregisterServiceResponse where
  message : String
deriving DecidableEq, Repr

/-- `api.UpdateServiceResponse`. -/
structure UpdateServiceResponse where
  message : String
deriving DecidableEq, Repr

/-- `api.HealthResponse`. -/
structure HealthResponse where
  status : String
  message : String
deriving DecidableEq, Repr

/-- `api.ServiceInfo`, the caller-facing record shape. -/
structure ServiceInfo where
  id : String
  name : String
  endpoint : String
  status : String
  lastHeartbeat : Nat
  type : ApiServiceType
deriving DecidableEq, Repr

/-- `api.ListServicesResponse`. -/
structure ListServicesResponse where
  services : List ServiceInfo
deriving DecidableEq, Repr

/-- Outcome of the outbound HTTP GET performed by `checkHTTPHealth`:
either a transport error (with the Go error's message) or a response with
the given status code. -/
inductive HttpOutcome where
  | transportError (msg : String)
  | statusCode (code : Nat)
deriving DecidableEq, Repr

/-- Outcome of the `systemctl is-active` invocation performed by
`checkSystemdHealth`: either a command error or the command's output. -/
inductive SysdOutcome where
  | execError (msg : String)
  | output (s : String)
deriving DecidableEq, Repr

/-- `WatchdogServer.checkHTTPHealth`: status string plus the error message
(if any), as functions of the probe outcome. -/
def checkHTTPHealth (o : HttpOutcome) : String × Option String :=
  match o with
  | .transportError m => ("unhealthy", some m)
  | .statusCode c =>
      if c != 200 then ("unhealthy", some ("HTTP status code: " ++ toString c))
      else ("healthy", none)

/-- `WatchdogServer.checkSystemdHealth`. -/
def checkSystemdHealth (o : SysdOutcome) : String × Option String :=
  match o with
  | .execError m => ("unhealthy", some m)
  | .output s =>
      if s.trim != "active" then
        ("unhealthy", some ("systemd health check command returned: " ++ s))
      else ("healthy", none)

/-- `WatchdogServer.checkGRPCHealth`: a stub, always healthy. -/
def checkGRPCHealth : String × Option String := ("healthy", none)

/-- `WatchdogServer.checkDatabaseHealth`: a stub, always healthy. -/
def checkDatabaseHealth : String × Option String := ("healthy", none)

/-- `WatchdogServer.GetHealth`, as a function of the store outcomes it can
observe through the `ServiceDB` interface: whether `HealthCheck` succeeded,
the `ListServices` result (`none` models a failed listing — the Go code then
holds a nil slice of length 0), and whether `LogHealthCheck` succeeded (its
result is only logged). -/
def getHealth (hcOk : Bool) (listRes : Option (List ServiceRecord))
    (logOk : Bool) : Except GrpcErr HealthResponse :=
  if !hcOk then
    .ok ⟨"unhealthy", "Database connection failed"⟩
  else
    let services := listRes.getD []
    .ok ⟨"healthy",
      "Watchdog service is running with " ++ toString services.length ++
      " registered services"⟩

/-- `WatchdogServer.RegisterService`: rejects empty name/endpoint before any
store access, then builds the record with `status = "active"`,
`lastHeartbeat = now` and `Type = service.Type(req.Type)` (the numeric cast,
see `serviceTypeCast`) and delegates to the store's create. -/
def registerService (db : DB) (name endpoint : String) (ty : ApiServiceType)
    (now : Nat) : OpResult RegisterServiceResponse :=
  if name == "" then
    ⟨.error ⟨.invalidArgument, "service name cannot be empty"⟩, db, []⟩
  else if endpoint == "" then
    ⟨.error ⟨.invalidArgument, "service endpoint cannot be empty"⟩, db, []⟩
  else
    let rec0 : ServiceRecord :=
      ⟨0, name, endpoint, serviceTypeCast ty, "active", now, 0, 0⟩
    match db.createService rec0 now with
    | .error _ =>
        ⟨.error ⟨.internal, "failed to register service"⟩, db, [.create]⟩
    | .ok (i, db₂) =>
        ⟨.ok ⟨toString i,
              "Service " ++ name ++ " registered successfully with ID " ++
              toString i⟩,
         db₂, [.create]⟩

/-- `WatchdogServer.UnregisterService`: empty / unparseable ids are rejected
before any store access; otherwise the delete is delegated to the store and
its "service not found" error surfaces as `NotFound`. -/
def unregisterService (db : DB) (sid : String) :
    OpResult UnregisterServiceResponse :=
  if sid == "" then
    ⟨.error ⟨.invalidArgument, "service ID cannot be empty"⟩, db, []⟩
  else
    match parseInt64 sid with
    | none => ⟨.error ⟨.invalidArgument, "invalid service ID format"⟩, db, []⟩
    | some i =>
        match db.deleteService i with
        | .error e =>
            if e == "service not found" then
              ⟨.error ⟨.notFound, "service not found"⟩, db, [.delete]⟩
            else
              ⟨.error ⟨.internal, "failed to unregister service"⟩, db,
               [.delete]⟩
        | .ok db₂ =>
            ⟨.ok ⟨"Service unregistered successfully"⟩, db₂, [.delete]⟩

/-- Mapping of a stored record to the caller-facing `ServiceInfo` performed
by `WatchdogServer.ListServices`: id rendered as its decimal string,
name/endpoint/status copied, `lastHeartbeat` rendered as a Unix timestamp,
type decoded by `stringToServiceType`. -/
def toServiceInfo (r : ServiceRecord) : ServiceInfo :=
  ⟨toString r.id, r.name, r.endpoint, r.status, r.lastHeartbeat,
   stringToServiceType r.type⟩

/-- `WatchdogServer.ListServices`. -/
def listServicesOp (db : DB) : OpResult ListServicesResponse :=
  ⟨.ok ⟨(db.listServices).map toServiceInfo⟩, db, [.list]⟩

/-- `WatchdogServer.UpdateService`: empty / unparseable ids rejected before
any store access; then the update is delegated to
`EntClient.UpdateService` with the wire type converted by
`apiToEntServiceType`.  The server maps a store error to `NotFound` only
when `err.Error()` equals exactly "service not found" (the wrapped message
from `EntClient.UpdateService` does not). -/
def updateServiceOp (db : DB) (sid st name : String) (ty : ApiServiceType)
    (endpoint : String) (now : Nat) : OpResult UpdateServiceResponse :=
  if sid == "" then
    ⟨.error ⟨.invalidArgument, "service ID cannot be empty"⟩, db, []⟩
  else
    match parseInt64 sid with
    | none => ⟨.error ⟨.invalidArgument, "invalid service ID format"⟩, db, []⟩
    | some i =>
        let tr : List StoreOp :=
          match db.findById i with
          | none => [.get]
          | some _ => [.get, .update]
        match db.updateService i st name (apiToEntServiceType ty) endpoint
            now with
        | .error e =>
            if e == "service not found" then
              ⟨.error ⟨.notFound, "service not found"⟩, db, tr⟩
            else
              ⟨.error ⟨.internal, "failed to update service"⟩, db, tr⟩
        | .ok db₂ => ⟨.ok ⟨"Service updated successfully"⟩, db₂, tr⟩

/-- `WatchdogServer.CheckServiceHealth`: empty / unparseable ids rejected
before any store access; a missing record is `NotFound`; then the probe is
dispatched on the record's store-level type string, with an
`InvalidArgument` "Unsupported service type" default arm.  Probe outcomes
are supplied as parameters. -/
def checkServiceHealthOp (db : DB) (sid : String) (ho : HttpOutcome)
    (so : SysdOutcome) : OpResult HealthResponse :=
  if sid == "" then
    ⟨.error ⟨.invalidArgument, "service ID cannot be empty"⟩, db, []⟩
  else
    match parseInt64 sid with
    | none => ⟨.error ⟨.invalidArgument, "invalid service ID format"⟩, db, []⟩
    | some i =>
        match db.getService i with
        | .error _ => ⟨.error ⟨.notFound, "service not found"⟩, db, [.get]⟩
        | .ok r =>
            if r.type == "SERVICE_TYPE_HTTP" then
              match checkHTTPHealth ho with
              | (_, some m) =>
                  ⟨.ok ⟨"unhealthy", "Service is unreachable: " ++ m⟩, db,
                   [.get]⟩
              | (st, none) =>
                  ⟨.ok ⟨st, "Service health checked successfully"⟩, db, [.get]⟩
            else if r.type == "SERVICE_TYPE_GRPC" then
              match checkGRPCHealth with
              | (_, some m) =>
                  ⟨.ok ⟨"unhealthy", "Service is unreachable: " ++ m⟩, db,
                   [.get]⟩
              | (st, none) =>
                  ⟨.ok ⟨st, "Service health checked successfully"⟩, db, [.get]⟩
            else if r.type == "SERVICE_TYPE_SYSTEMD" then
              match checkSystemdHealth so with
              | (_, some m) =>
                  ⟨.ok ⟨"unhealthy", "Service is unreachable: " ++ m⟩, db,
                   [.get]⟩
              | (st, none) =>
                  ⟨.ok ⟨st, "Service health checked successfully"⟩, db, [.get]⟩
            else if r.type == "SERVICE_TYPE_DATABASE" ||
                r.type == "SERVICE_TYPE_CACHE" ||
                r.type == "SERVICE_TYPE_QUEUE" ||
                r.type == "SERVICE_TYPE_STORAGE" ||
                r.type == "SERVICE_TYPE_EXTERNAL_API" ||
                r.type == "SERVICE_TYPE_MICROSERVICE" ||
                r.type == "SERVICE_TYPE_OTHER" then
              match checkDatabaseHealth with
              | (_, some m) =>
                  ⟨.ok ⟨"unhealthy", "Service is unreachable: " ++ m⟩, db,
                   [.get]⟩
              | (st, none) =>
                  ⟨.ok ⟨st, "Service health checked successfully"⟩, db, [.get]⟩
            else
              ⟨.error ⟨.invalidArgument, "Unsupported service type"⟩, db,
               [.get]⟩

/-- One inbound server call, for reasoning about operation sequences.
`GetHealth` is omitted: it never changes the store state. -/
inductive ServerOp where
  | register (name endpoint : String) (ty : ApiServiceType) (now : Nat)
  | unregister (sid : String)
  | update (sid st name : String) (ty : ApiServiceType) (endpoint : String)
      (now : Nat)
  | checkHealth (sid : String) (ho : HttpOutcome) (so : SysdOutcome)
  | list

/-- The store state after one server call. -/
def applyOp (db : DB) : ServerOp → DB
  | .register name endpoint ty now => (registerService db name endpoint ty now).db
  | .unregister sid => (unregisterService db sid).db
  | .update sid st name ty endpoint now =>
      (updateServiceOp db sid st name ty endpoint now).db
  | .checkHealth sid ho so => (checkServiceHealthOp db sid ho so).db
  | .list => (listServicesOp db).db

/-- The store state after a sequence of server calls. -/
def applyOps (db : DB) (ops : List ServerOp) : DB :=
  ops.foldl applyOp db

/-! ### Helper lemmas -/

/-- A string with a non-empty left part is non-empty. -/
lemma append_left_ne_empty (p m : String) (hp : p ≠ "") : p ++ m ≠ "" := by
  intro h
  apply hp
  have hlen := congrArg String.length h
  rw [String.length_append] at hlen
  have hz : p.length = 0 := by
    have : p.length + m.length = 0 := by simpa using hlen
    omega
  cases p with
  | mk data =>
      cases data with
      | nil => rfl
      | cons c cs => simp [String.length] at hz

/-- A record store whose ids are all positive has no record at a
non-positive id. -/
lemma findById_eq_none_of_nonpos (db : DB) (i : Int)
    (hinv : ∀ r ∈ db.services, 1 ≤ r.id) (hi : i ≤ 0) :
    db.findById i = none := by
  unfold DB.findById
  refine List.find?_eq_none.mpr (fun r hr => ?_)
  have h1 := hinv r hr
  simp only [beq_iff_eq]
  omega

/-- Combining two `Pairwise` facts pointwise. -/
lemma pairwise_combine {α : Type} {R S T : α → α → Prop}
    (h : ∀ a b, R a b → S a b → T a b) :
    ∀ {l : List α}, l.Pairwise R → l.Pairwise S → l.Pairwise T := by
  intro l
  induction l with
  | nil => intro _ _; exact List.Pairwise.nil
  | cons a t ih =>
      intro hR hS
      rcases List.pairwise_cons.mp hR with ⟨hRa, hRt⟩
      rcases List.pairwise_cons.mp hS with ⟨hSa, hSt⟩
      exact List.pairwise_cons.mpr
        ⟨fun b hb => h a b (hRa b hb) (hSa b hb), ih hRt hSt⟩

/-- `CheckServiceHealth` never changes the store state. -/
lemma checkServiceHealthOp_db_eq (db : DB) (sid : String) (ho : HttpOutcome)
    (so : SysdOutcome) : (checkServiceHealthOp db sid ho so).db = db := by
  unfold checkServiceHealthOp
  repeat' split
  all_goals rfl

/-- Shape of a successful store create. -/
lemma createService_ok {db : DB} {r : ServiceRecord} {now : Nat} {i : Int}
    {db₂ : DB} (h : db.createService r now = .ok (i, db₂)) :
    i = db.nextId ∧
    db₂ = ⟨db.services ++
            [⟨db.nextId, r.name, r.endpoint, r.type, r.status,
              r.lastHeartbeat, now, now⟩],
           db.nextId + 1⟩ := by
  unfold DB.createService at h
  split at h
  · exact absurd h (by simp)
  · split at h
    · exact absurd h (by simp)
    · simp only [Except.ok.injEq, Prod.mk.injEq] at h
      exact ⟨h.1.symm, h.2.symm⟩

/-- Shape of a successful store delete. -/
lemma deleteService_ok {db : DB} {i : Int} {db₂ : DB}
    (h : db.deleteService i = .ok db₂) :
    db₂ = ⟨db.services.filter (fun r => !(r.id == i)), db.nextId⟩ := by
  unfold DB.deleteService at h
  split at h
  · simp only [Except.ok.injEq] at h
    exact h.symm
  · exact absurd h (by simp)

/-- Shape of a successful store update: same ids, same counter. -/
lemma updateService_ok {db : DB} {i : Int} {st name ty endpoint : String}
    {now : Nat} {db₂ : DB}
    (h : db.updateService i st name ty endpoint now = .ok db₂) :
    (∀ r₂ ∈ db₂.services, ∃ r ∈ db.services, r₂.id = r.id) ∧
    db₂.nextId = db.nextId := by
  unfold DB.updateService at h
  split at h
  · exact Except.noConfusion h
  dsimp only at h
  repeat' split at h
  all_goals try exact Except.noConfusion h
  all_goals
    injection h with h
    subst h
    refine ⟨?_, rfl⟩
    intro r₂ hr₂
    simp only [List.mem_map] at hr₂
    rcases hr₂ with ⟨r, hr, hval⟩
    refine ⟨r, hr, ?_⟩
    subst hval
    split <;> rfl

/-- Records the store can never again resolve: absent now, and the
auto-increment counter has moved past the id. -/
def NotPresent (i : Int) (db : DB) : Prop :=
  (∀ r ∈ db.services, r.id ≠ i) ∧ i < db.nextId

lemma notPresent_findById {i : Int} {db : DB} (h : NotPresent i db) :
    db.findById i = none := by
  unfold DB.findById
  refine List.find?_eq_none.mpr (fun r hr => ?_)
  have := h.1 r hr
  simp only [beq_iff_eq]
  exact this

/-- Every server operation preserves `NotPresent`: an id that is gone and
below the auto-increment counter can never reappear. -/
lemma applyOp_notPresent (i : Int) (db : DB) (op : ServerOp)
    (h : NotPresent i db) : NotPresent i (applyOp db op) := by
  rcases h with ⟨habs, hlt⟩
  cases op with
  | register name endpoint ty now =>
      show NotPresent i (registerService db name endpoint ty now).db
      unfold registerService
      repeat' split
      all_goals try exact ⟨habs, hlt⟩
      all_goals dsimp only
      all_goals repeat' split
      all_goals try exact ⟨habs, hlt⟩
      all_goals
        rename_i i₂ db₂ heq
        rcases createService_ok heq with ⟨_, hdb₂⟩
        subst hdb₂
        refine ⟨?_, ?_⟩
        · intro r hr
          rcases List.mem_append.mp hr with hold | hnew
          · exact habs r hold
          · rcases List.mem_singleton.mp hnew with rfl
            show ¬db.nextId = i
            omega
        · show i < db.nextId + 1
          omega
  | unregister sid =>
      show NotPresent i (unregisterService db sid).db
      unfold unregisterService
      repeat' split
      all_goals try exact ⟨habs, hlt⟩
      all_goals dsimp only
      all_goals
        rename_i db₂ heq
        have hdb₂ := deleteService_ok heq
        subst hdb₂
        refine ⟨?_, hlt⟩
        intro r hr
        exact habs r (List.mem_of_mem_filter hr)
  | update sid st name ty endpoint now =>
      show NotPresent i (updateServiceOp db sid st name ty endpoint now).db
      unfold updateServiceOp
      repeat' split
      all_goals try exact ⟨habs, hlt⟩
      all_goals dsimp only
      all_goals
        rename_i db₂ heq
        rcases updateService_ok heq with ⟨hids, hnext⟩
        refine ⟨?_, ?_⟩
        · intro r₂ hr₂
          rcases hids r₂ hr₂ with ⟨r, hr, hid⟩
          rw [hid]
          exact habs r hr
        · rw [hnext]
          exact hlt
  | checkHealth sid ho so =>
      show NotPresent i (checkServiceHealthOp db sid ho so).db
      rw [checkServiceHealthOp_db_eq]
      exact ⟨habs, hlt⟩
  | list => exact ⟨habs, hlt⟩

lemma applyOps_notPresent (i : Int) :
    ∀ (ops : List ServerOp) (db : DB),
      NotPresent i db → NotPresent i (applyOps db ops) := by
  intro ops
  induction ops with
  | nil => intro db h; exact h
  | cons op rest ih =>
      intro db h
      exact ih (applyOp db op) (applyOp_notPresent i db op h)

/-! ### Concrete store states used in witnesses and counterexamples -/

/-- A store holding one record of store-level type `SERVICE_TYPE_HTTP`. -/
def dbHttpSvc : DB :=
  ⟨[⟨1, "svc", "ep", "SERVICE_TYPE_HTTP", "active", 5, 5, 5⟩], 2⟩

/-- A store holding one record of store-level type
`SERVICE_TYPE_UNSPECIFIED` (a schema-valid, reachable type that the
health-check dispatch does not handle). -/
def dbUnspecSvc : DB :=
  ⟨[⟨1, "svc", "ep", "SERVICE_TYPE_UNSPECIFIED", "active", 5, 5, 5⟩], 2⟩

/-- A store holding three records A, B, C created at times 1, 2, 3. -/
def dbThree : DB :=
  ⟨[⟨1, "A", "a", "SERVICE_TYPE_HTTP", "active", 1, 1, 1⟩,
    ⟨2, "B", "b", "SERVICE_TYPE_HTTP", "active", 2, 2, 2⟩,
    ⟨3, "C", "c", "SERVICE_TYPE_HTTP", "active", 3, 3, 3⟩], 4⟩

/-! ### Claims -/

/-- Claim C1 (code_bug evaluation): `RegisterService` does NOT store the
supplied type and does not succeed.  The record's type is built by the Go
conversion `service.Type(req.Type)` — an integer-to-string conversion that
produces the one-rune string of the enum's numeric value (here `"\x01"`
for HTTP), which is not a value of the schema's type enumeration; the
store's create therefore fails validation and the call returns `Internal`,
leaving the store unchanged — contradicting the claim that registration
succeeds and a subsequent list shows the supplied type. -/
theorem register_stores_miscast_type_and_fails :
    serviceTypeCast ApiServiceType.http = String.singleton (Char.ofNat 1)
    ∧ schemaTypeValues.contains (serviceTypeCast ApiServiceType.http) = false
    ∧ (registerService DB.empty "svc" "http://localhost:8080"
        ApiServiceType.http 5).result
        = .error ⟨.internal, "failed to register service"⟩
    ∧ (registerService DB.empty "svc" "http://localhost:8080"
        ApiServiceType.http 5).db = DB.empty
    ∧ (registerService DB.empty "svc" "http://localhost:8080"
        ApiServiceType.systemd 5).result
        = .error ⟨.internal, "failed to register service"⟩ :=
  ⟨rfl, by decide, rfl, rfl, rfl⟩

/-- Claim C2 (code_bug evaluation): the wire enumeration value `SYSTEMD`
is not representable in the record store.  `apiToEntServiceType` maps it to
the store-level string "SERVICE_TYPE_SYSTEMD", but the schema's type
enumeration does not contain that value, so a create carrying it fails
store validation; the other ten wire values all map into the schema
enumeration. -/
theorem systemd_type_missing_from_schema :
    apiToEntServiceType ApiServiceType.systemd = "SERVICE_TYPE_SYSTEMD"
    ∧ schemaTypeValues.contains "SERVICE_TYPE_SYSTEMD" = false
    ∧ DB.empty.createService
        ⟨0, "svc", "unit", "SERVICE_TYPE_SYSTEMD", "active", 5, 0, 0⟩ 5
        = .error "failed to create service: validator failed"
    ∧ allApiTypes.all
        (fun t => schemaTypeValues.contains (apiToEntServiceType t)) = false
    ∧ (allApiTypes.filter (fun t => !(t == ApiServiceType.systemd))).all
        (fun t => schemaTypeValues.contains (apiToEntServiceType t)) = true :=
  ⟨rfl, by decide, rfl, by decide, by decide⟩

/-- Claim C5 (code_bug evaluation): `UpdateService` with the zero enum value
for `type` does NOT keep the record's existing type.  The server converts
the zero value with `apiToEntServiceType`, producing the non-empty string
"SERVICE_TYPE_UNSPECIFIED", so `EntClient.UpdateService`'s keep-existing
check (`updateServiceType == ""`) never fires and the stored type is
overwritten — here an `HTTP` record becomes `UNSPECIFIED`, while name and
endpoint are kept, status is set and `lastHeartbeat` advances. -/
theorem update_omitted_type_clobbered :
    (updateServiceOp dbHttpSvc "1" "healthy" "" ApiServiceType.unspecified ""
        10).result = .ok ⟨"Service updated successfully"⟩
    ∧ (updateServiceOp dbHttpSvc "1" "healthy" "" ApiServiceType.unspecified ""
        10).db
      = ⟨[⟨1, "svc", "ep", "SERVICE_TYPE_UNSPECIFIED", "healthy", 10, 5, 10⟩],
         2⟩
    ∧ apiToEntServiceType ApiServiceType.unspecified
      = "SERVICE_TYPE_UNSPECIFIED"
    ∧ dbHttpSvc.findById 1
      = some ⟨1, "svc", "ep", "SERVICE_TYPE_HTTP", "active", 5, 5, 5⟩
    ∧ "SERVICE_TYPE_UNSPECIFIED" ≠ "SERVICE_TYPE_HTTP" :=
  ⟨rfl, rfl, rfl, rfl, by decide⟩

/-- Claim C3 counterexample: `CheckServiceHealth` on a stored record whose
type the dispatch does not handle returns `InvalidArgument`
("Unsupported service type") AFTER having performed a store operation (the
`GetService` read) — so it is not true that every `InvalidArgument` return
happens with no record-store operation performed. -/
theorem checkHealth_invalidargument_after_store_get :
    (checkServiceHealthOp dbUnspecSvc "1" (.statusCode 200)
        (.output "active")).result
      = .error ⟨.invalidArgument, "Unsupported service type"⟩
    ∧ (checkServiceHealthOp dbUnspecSvc "1" (.statusCode 200)
        (.output "active")).trace = [StoreOp.get]
    ∧ [StoreOp.get] ≠ ([] : List StoreOp) :=
  ⟨rfl, rfl, by decide⟩

/-- Claim C7 counterexample: the id string "0" (and likewise "-5") parses
successfully under `strconv.ParseInt`, so `UnregisterService` does NOT
return `InvalidArgument`: it reaches the store (a delete is attempted) and
fails with `NotFound`. -/
theorem zero_id_reaches_store :
    parseInt64 "0" = some 0
    ∧ parseInt64 "-5" = some (-5)
    ∧ (unregisterService DB.empty "0").result
      = .error ⟨.notFound, "service not found"⟩
    ∧ (unregisterService DB.empty "0").trace = [StoreOp.delete]
    ∧ (unregisterService DB.empty "-5").result
      = .error ⟨.notFound, "service not found"⟩
    ∧ Code.notFound ≠ Code.invalidArgument :=
  ⟨rfl, rfl, rfl, rfl, rfl, by decide⟩

/-- Claim C10: when the store liveness probe succeeds but the record-count
retrieval fails (`ListServices` returns an error, modelled by `none`), the
Go code keeps a nil slice of length 0, so `GetHealth` still returns status
"healthy" with a message reporting 0 registered services — whatever the
audit-log outcome. -/
theorem getHealth_list_failure_zero_count :
    getHealth true none true
      = .ok ⟨"healthy", "Watchdog service is running with 0 registered services"⟩
    ∧ getHealth true none false
      = .ok ⟨"healthy", "Watchdog service is running with 0 registered services"⟩ :=
  ⟨rfl, rfl⟩

/-- Claim C4: `GetHealth` never returns a call-level error, for every store
outcome: a failed liveness probe yields status "unhealthy" with message
"Database connection failed"; a successful probe yields status "healthy"
with a message embedding the record count; and the audit-log outcome never
changes the returned result. -/
theorem getHealth_never_fails :
    ∀ (hcOk logOk : Bool) (listRes : Option (List ServiceRecord)),
      (∃ resp, getHealth hcOk listRes logOk = .ok resp)
      ∧ (hcOk = false →
          getHealth hcOk listRes logOk
            = .ok ⟨"unhealthy", "Database connection failed"⟩)
      ∧ (hcOk = true →
          getHealth hcOk listRes logOk
            = .ok ⟨"healthy",
                "Watchdog service is running with "
                ++ toString (listRes.getD []).length ++ " registered services"⟩)
      ∧ (∀ logOk₂, getHealth hcOk listRes logOk
            = getHealth hcOk listRes logOk₂) := by
  intro hcOk logOk listRes
  cases hcOk with
  | false =>
      refine ⟨⟨_, rfl⟩, fun _ => rfl, fun h => ?_, fun _ => rfl⟩
      exact absurd h (by decide)
  | true =>
      refine ⟨⟨_, rfl⟩, fun h => ?_, fun _ => rfl, fun _ => rfl⟩
      exact absurd h (by decide)

/-- Witness for C4 at concrete store outcomes. -/
theorem getHealth_never_fails_witness :
    getHealth false none true
      = .ok ⟨"unhealthy", "Database connection failed"⟩
    ∧ getHealth true (some []) false
      = .ok ⟨"healthy", "Watchdog service is running with 0 registered services"⟩ :=
  ⟨(getHealth_never_fails false true none).2.1 rfl,
   (getHealth_never_fails true false (some [])).2.2.1 rfl⟩

/-- Claim C6: for every existing record of store-level type
`SERVICE_TYPE_HTTP`, `CheckServiceHealth` returns successfully in every
probe outcome: a 200 response yields status "healthy"; any non-200 code or
transport error yields status "unhealthy" with a non-empty message naming
the underlying cause. -/
theorem checkHealth_http_outcomes (db : DB) (sid : String) (i : Int)
    (r : ServiceRecord)
    (hparse : parseInt64 sid = some i)
    (hfound : db.findById i = some r)
    (hty : r.type = "SERVICE_TYPE_HTTP") :
    (∀ so, (checkServiceHealthOp db sid (.statusCode 200) so).result
        = .ok ⟨"healthy", "Service health checked successfully"⟩)
    ∧ (∀ c so, c ≠ 200 →
        (checkServiceHealthOp db sid (.statusCode c) so).result
          = .ok ⟨"unhealthy",
              "Service is unreachable: " ++ ("HTTP status code: " ++ toString c)⟩
        ∧ ("Service is unreachable: " ++ ("HTTP status code: " ++ toString c))
            ≠ "")
    ∧ (∀ m so, (checkServiceHealthOp db sid (.transportError m) so).result
          = .ok ⟨"unhealthy", "Service is unreachable: " ++ m⟩
        ∧ ("Service is unreachable: " ++ m) ≠ "") := by
  have hsid : ¬(sid == "") = true := by
    intro hs
    rw [eq_of_beq hs] at hparse
    exact Option.noConfusion hparse
  have hne : ∀ m : String, ("Service is unreachable: " ++ m) ≠ "" :=
    fun m => append_left_ne_empty _ m (by decide)
  refine ⟨?_, ?_, ?_⟩
  · intro so
    unfold checkServiceHealthOp DB.getService
    rw [if_neg hsid, hparse]
    dsimp only
    rw [hfound]
    dsimp only
    simp only [hty]
    rfl
  · intro c so hc
    refine ⟨?_, hne _⟩
    unfold checkServiceHealthOp DB.getService
    rw [if_neg hsid, hparse]
    dsimp only
    rw [hfound]
    dsimp only
    simp only [hty]
    have hcb : (c == 200) = false := by
      simp only [beq_eq_false_iff_ne, ne_eq]
      exact hc
    simp only [checkHTTPHealth, bne, hcb, Bool.not_false, if_true]
    rfl
  · intro m so
    refine ⟨?_, hne _⟩
    unfold checkServiceHealthOp DB.getService
    rw [if_neg hsid, hparse]
    dsimp only
    rw [hfound]
    dsimp only
    simp only [hty]
    rfl

/-- Witness for C6 at a concrete store and all three probe outcomes. -/
theorem checkHealth_http_outcomes_witness :
    (checkServiceHealthOp dbHttpSvc "1" (.statusCode 200)
        (.output "active")).result
      = .ok ⟨"healthy", "Service health checked successfully"⟩
    ∧ (checkServiceHealthOp dbHttpSvc "1" (.statusCode 503)
        (.output "active")).result
      = .ok ⟨"unhealthy", "Service is unreachable: HTTP status code: 503"⟩
    ∧ (checkServiceHealthOp dbHttpSvc "1" (.transportError "connection refused")
        (.output "active")).result
      = .ok ⟨"unhealthy", "Service is unreachable: connection refused"⟩ := by
  have h := checkHealth_http_outcomes dbHttpSvc "1" 1
    ⟨1, "svc", "ep", "SERVICE_TYPE_HTTP", "active", 5, 5, 5⟩ rfl rfl rfl
  exact ⟨h.1 _, (h.2.1 503 _ (by decide)).1, (h.2.2 "connection refused" _).1⟩

/-- Claim C3 (amended): every `InvalidArgument` return leaves the store
state unchanged; for `RegisterService`, `UnregisterService` and
`UpdateService` no store operation at all has been performed, while
`CheckServiceHealth`'s unsupported-service-type failure may follow the
(read-only) `GetService` store operation — its trace is empty or exactly
one get. -/
theorem invalidargument_leaves_store_unchanged :
    (∀ (db : DB) (name endpoint : String) (ty : ApiServiceType) (now : Nat)
        (e : GrpcErr),
      (registerService db name endpoint ty now).result = .error e →
      e.code = Code.invalidArgument →
      (registerService db name endpoint ty now).trace = []
      ∧ (registerService db name endpoint ty now).db = db)
    ∧ (∀ (db : DB) (sid : String) (e : GrpcErr),
      (unregisterService db sid).result = .error e →
      e.code = Code.invalidArgument →
      (unregisterService db sid).trace = []
      ∧ (unregisterService db sid).db = db)
    ∧ (∀ (db : DB) (sid st name : String) (ty : ApiServiceType)
        (endpoint : String) (now : Nat) (e : GrpcErr),
      (updateServiceOp db sid st name ty endpoint now).result = .error e →
      e.code = Code.invalidArgument →
      (updateServiceOp db sid st name ty endpoint now).trace = []
      ∧ (updateServiceOp db sid st name ty endpoint now).db = db)
    ∧ (∀ (db : DB) (sid : String) (ho : HttpOutcome) (so : SysdOutcome)
        (e : GrpcErr),
      (checkServiceHealthOp db sid ho so).result = .error e →
      e.code = Code.invalidArgument →
      (checkServiceHealthOp db sid ho so).db = db
      ∧ ((checkServiceHealthOp db sid ho so).trace = []
         ∨ (checkServiceHealthOp db sid ho so).trace = [StoreOp.get])) := by
  refine ⟨?_, ?_, ?_, ?_⟩
  · intro db name endpoint ty now e hres hcode
    cases h1 : name == "" with
    | true => simp [registerService, h1]
    | false =>
      cases h2 : endpoint == "" with
      | true => simp [registerService, h1, h2]
      | false =>
          simp only [registerService, h1, h2, Bool.false_eq_true, if_false]
            at hres
          cases hcr : db.createService
              ⟨0, name, endpoint, serviceTypeCast ty, "active", now, 0, 0⟩
              now with
          | error err =>
              rw [hcr] at hres
              dsimp only at hres
              injection hres with h
              rw [← h] at hcode
              exact absurd hcode (by decide)
          | ok p =>
              rw [hcr] at hres
              rcases p with ⟨i₂, db₂⟩
              dsimp only at hres
              exact Except.noConfusion hres
  · intro db sid e hres hcode
    cases h1 : sid == "" with
    | true => simp [unregisterService, h1]
    | false =>
      simp only [unregisterService, h1, Bool.false_eq_true, if_false]
        at hres ⊢
      cases hp : parseInt64 sid with
      | none => simp [hp]
      | some j =>
          rw [hp] at hres
          dsimp only at hres
          cases hd : db.deleteService j with
          | error err =>
              rw [hd] at hres
              dsimp only at hres
              cases he : err == "service not found" with
              | true =>
                  rw [he] at hres
                  simp only [reduceIte] at hres
                  injection hres with h
                  rw [← h] at hcode
                  exact absurd hcode (by decide)
              | false =>
                  rw [he] at hres
                  injection hres with h
                  rw [← h] at hcode
                  exact absurd hcode (by decide)
          | ok db₂ =>
              rw [hd] at hres
              dsimp only at hres
              exact Except.noConfusion hres
  · intro db sid st name ty endpoint now e hres hcode
    cases h1 : sid == "" with
    | true => simp [updateServiceOp, h1]
    | false =>
      simp only [updateServiceOp, h1, Bool.false_eq_true, if_false]
        at hres ⊢
      cases hp : parseInt64 sid with
      | none => simp [hp]
      | some j =>
          rw [hp] at hres
          dsimp only at hres
          cases hu : db.updateService j st name (apiToEntServiceType ty)
              endpoint now with
          | error err =>
              rw [hu] at hres
              dsimp only at hres
              cases he : err == "service not found" with
              | true =>
                  rw [he] at hres
                  simp only [reduceIte] at hres
                  injection hres with h
                  rw [← h] at hcode
                  exact absurd hcode (by decide)
              | false =>
                  rw [he] at hres
                  injection hres with h
                  rw [← h] at hcode
                  exact absurd hcode (by decide)
          | ok db₂ =>
              rw [hu] at hres
              dsimp only at hres
              exact Except.noConfusion hres
  · intro db sid ho so e hres hcode
    refine ⟨checkServiceHealthOp_db_eq db sid ho so, ?_⟩
    unfold checkServiceHealthOp
    repeat' split
    all_goals first
      | exact Or.inl rfl
      | exact Or.inr rfl

/-- Witness for the amended C3, at concrete inputs that produce each
operation's `InvalidArgument` failure. -/
theorem invalidargument_leaves_store_unchanged_witness :
    ((registerService DB.empty "" "ep" ApiServiceType.http 5).trace = []
      ∧ (registerService DB.empty "" "ep" ApiServiceType.http 5).db = DB.empty)
    ∧ (unregisterService dbHttpSvc "abc").trace = []
    ∧ (updateServiceOp dbHttpSvc "abc" "healthy" "" ApiServiceType.http "ep"
        9).db = dbHttpSvc
    ∧ ((checkServiceHealthOp dbUnspecSvc "1" (.statusCode 200)
          (.output "active")).trace = []
       ∨ (checkServiceHealthOp dbUnspecSvc "1" (.statusCode 200)
          (.output "active")).trace = [StoreOp.get]) := by
  have h := invalidargument_leaves_store_unchanged
  exact ⟨h.1 DB.empty "" "ep" .http 5
            ⟨.invalidArgument, "service name cannot be empty"⟩ rfl rfl,
         (h.2.1 dbHttpSvc "abc"
            ⟨.invalidArgument, "invalid service ID format"⟩ rfl rfl).1,
         (h.2.2.1 dbHttpSvc "abc" "healthy" "" .http "ep" 9
            ⟨.invalidArgument, "invalid service ID format"⟩ rfl rfl).2,
         (h.2.2.2 dbUnspecSvc "1" (.statusCode 200) (.output "active")
            ⟨.invalidArgument, "Unsupported service type"⟩ rfl rfl).2⟩

/-- Claim C7 (amended): only ids that are empty or fail `strconv.ParseInt`
are rejected with `InvalidArgument` before any store access;
zero and negative numeric ids parse successfully and reach the store,
where the (necessarily missing, since stored ids are positive) record
yields `NotFound` for `UnregisterService` and `CheckServiceHealth`, and
`Internal` for `UpdateService` (whose wrapped store error fails the
server's "service not found" string comparison). -/
theorem id_validation_semantics :
    (∀ (db : DB) (sid : String), parseInt64 sid = none →
      (∃ e, (unregisterService db sid).result = .error e
            ∧ e.code = Code.invalidArgument)
      ∧ (unregisterService db sid).trace = []
      ∧ (unregisterService db sid).db = db
      ∧ (∀ st name ty endpoint now,
          (∃ e, (updateServiceOp db sid st name ty endpoint now).result
                  = .error e ∧ e.code = Code.invalidArgument)
          ∧ (updateServiceOp db sid st name ty endpoint now).trace = []
          ∧ (updateServiceOp db sid st name ty endpoint now).db = db)
      ∧ (∀ ho so,
          (∃ e, (checkServiceHealthOp db sid ho so).result = .error e
                ∧ e.code = Code.invalidArgument)
          ∧ (checkServiceHealthOp db sid ho so).trace = []
          ∧ (checkServiceHealthOp db sid ho so).db = db))
    ∧ (∀ (db : DB) (sid : String) (i : Int), parseInt64 sid = some i →
        i ≤ 0 → (∀ r ∈ db.services, 1 ≤ r.id) →
        (unregisterService db sid).result
          = .error ⟨.notFound, "service not found"⟩
        ∧ (unregisterService db sid).trace = [StoreOp.delete]
        ∧ (∀ st name ty endpoint now,
            (updateServiceOp db sid st name ty endpoint now).result
              = .error ⟨.internal, "failed to update service"⟩
            ∧ (updateServiceOp db sid st name ty endpoint now).trace
              = [StoreOp.get])
        ∧ (∀ ho so,
            (checkServiceHealthOp db sid ho so).result
              = .error ⟨.notFound, "service not found"⟩
            ∧ (checkServiceHealthOp db sid ho so).trace = [StoreOp.get])) := by
  constructor
  · intro db sid hp
    cases h1 : sid == "" with
    | true =>
        refine ⟨⟨⟨.invalidArgument, "service ID cannot be empty"⟩, ?_, rfl⟩,
          ?_, ?_, fun st name ty endpoint now =>
            ⟨⟨⟨.invalidArgument, "service ID cannot be empty"⟩, ?_, rfl⟩,
              ?_, ?_⟩,
          fun ho so =>
            ⟨⟨⟨.invalidArgument, "service ID cannot be empty"⟩, ?_, rfl⟩,
              ?_, ?_⟩⟩ <;>
          simp [unregisterService, updateServiceOp, checkServiceHealthOp, h1]
    | false =>
        refine ⟨⟨⟨.invalidArgument, "invalid service ID format"⟩, ?_, rfl⟩,
          ?_, ?_, fun st name ty endpoint now =>
            ⟨⟨⟨.invalidArgument, "invalid service ID format"⟩, ?_, rfl⟩,
              ?_, ?_⟩,
          fun ho so =>
            ⟨⟨⟨.invalidArgument, "invalid service ID format"⟩, ?_, rfl⟩,
              ?_, ?_⟩⟩ <;>
          simp [unregisterService, updateServiceOp, checkServiceHealthOp, h1,
            hp]
  · intro db sid i hp hile hinv
    have hnone : db.findById i = none := findById_eq_none_of_nonpos db i hinv
      hile
    have h1 : (sid == "") = false := by
      cases hs : sid == "" with
      | false => rfl
      | true =>
          rw [eq_of_beq hs] at hp
          exact Option.noConfusion hp
    have hdel : db.deleteService i = .error "service not found" := by
      unfold DB.deleteService
      rw [hnone]
    have hget : db.getService i = .error "service not found" := by
      unfold DB.getService
      rw [hnone]
    have hupd : db.updateService i = fun st name ty endpoint now =>
        (.error "service not found: service not found" : Except String DB) := by
      funext st name ty endpoint now
      unfold DB.updateService
      rw [hnone]
    refine ⟨?_, ?_, ?_, ?_⟩
    · simp [unregisterService, h1, hp, hdel]
    · simp [unregisterService, h1, hp, hdel]
    · intro st name ty endpoint now
      constructor <;>
        simp [updateServiceOp, h1, hp, hnone,
          congrFun (congrFun (congrFun (congrFun (congrFun hupd st) name)
            (apiToEntServiceType ty)) endpoint) now]
    · intro ho so
      constructor <;> simp [checkServiceHealthOp, h1, hp, hget]

/-- Witness for the amended C7 at concrete ids "abc", "0" and "-3". -/
theorem id_validation_semantics_witness :
    (∃ e, (unregisterService dbHttpSvc "abc").result = .error e
          ∧ e.code = Code.invalidArgument)
    ∧ (unregisterService dbHttpSvc "abc").trace = []
    ∧ (unregisterService dbHttpSvc "0").result
        = .error ⟨.notFound, "service not found"⟩
    ∧ (updateServiceOp dbHttpSvc "-3" "healthy" "" ApiServiceType.http ""
        9).result = .error ⟨.internal, "failed to update service"⟩
    ∧ (checkServiceHealthOp dbHttpSvc "0" (.statusCode 200)
        (.output "active")).result = .error ⟨.notFound, "service not found"⟩ := by
  have h1 := id_validation_semantics.1 dbHttpSvc "abc" rfl
  have h2 := id_validation_semantics.2 dbHttpSvc "0" 0 rfl (by decide)
    (by decide)
  have h3 := id_validation_semantics.2 dbHttpSvc "-3" (-3) rfl (by decide)
    (by decide)
  exact ⟨h1.1, h1.2.1, h2.1,
    (h3.2.2.1 "healthy" "" ApiServiceType.http "" 9).1,
    (h2.2.2.2 (.statusCode 200) (.output "active")).1⟩

/-- Created strictly earlier (insertion order of a store whose clock
advanced between creates). -/
def createdLt (a b : ServiceRecord) : Prop := a.createdAt < b.createdAt

/-- Created strictly later: the list order `ListServices` promises. -/
def createdGt (a b : ServiceRecord) : Prop := b.createdAt < a.createdAt

instance : DecidableRel createdLt := fun a b => Nat.decLt a.createdAt b.createdAt

instance : DecidableRel createdGt := fun a b => Nat.decLt b.createdAt a.createdAt

/-- Claim C8: `ListServices` succeeds and returns exactly the stored
records (a permutation — each exactly once), ordered by creation time
descending (for distinct creation times, strictly: every later-created
record precedes every earlier-created one), each mapped to the
caller-facing shape: id as its decimal string, name/endpoint/status
copied, `lastHeartbeat` as the Unix timestamp, type decoded. -/
theorem listServices_ordered_and_mapped (db : DB)
    (hasc : db.services.Pairwise createdLt) :
    (listServicesOp db).result = .ok ⟨(DB.listServices db).map toServiceInfo⟩
    ∧ (DB.listServices db).Perm db.services
    ∧ (DB.listServices db).Pairwise createdGt
    ∧ (∀ r : ServiceRecord, toServiceInfo r
        = ⟨toString r.id, r.name, r.endpoint, r.status, r.lastHeartbeat,
           stringToServiceType r.type⟩) := by
  refine ⟨rfl, List.perm_insertionSort _ _, ?_, fun r => rfl⟩
  have hsorted : (DB.listServices db).Pairwise createdGe :=
    List.sorted_insertionSort createdGe db.services
  have hperm : (DB.listServices db).Perm db.services :=
    List.perm_insertionSort createdGe db.services
  have hneInput : db.services.Pairwise
      (fun a b => a.createdAt ≠ b.createdAt) :=
    hasc.imp (fun h => Nat.ne_of_lt h)
  have hne : (DB.listServices db).Pairwise
      (fun a b => a.createdAt ≠ b.createdAt) :=
    (List.Perm.pairwise_iff (fun {_ _} h => Ne.symm h) hperm).mpr hneInput
  exact pairwise_combine
    (fun _ _ hge hneq => Nat.lt_of_le_of_ne hge (fun hba => hneq hba.symm))
    hsorted hne

/-- Witness for C8 at a three-record store created in order A, B, C. -/
theorem listServices_ordered_and_mapped_witness :
    (listServicesOp dbThree).result
      = .ok ⟨(DB.listServices dbThree).map toServiceInfo⟩
    ∧ (DB.listServices dbThree).Perm dbThree.services
    ∧ (DB.listServices dbThree).Pairwise createdGt
    ∧ toServiceInfo ⟨1, "A", "a", "SERVICE_TYPE_HTTP", "active", 1, 1, 1⟩
      = ⟨"1", "A", "a", "active", 1, ApiServiceType.http⟩ := by
  have h := listServices_ordered_and_mapped dbThree (by
    simp [dbThree, List.pairwise_cons, createdLt])
  exact ⟨h.1, h.2.1, h.2.2.1, h.2.2.2 _⟩

/-- Claim C9: `UnregisterService` on an existing id succeeds and deletes
the record; a second call with the same id — and any call whose
well-formed id references no record — fails with `NotFound`; and under ids
below the auto-increment counter the deleted id is never again resolvable
by lookup, whatever server operations follow. -/
theorem unregister_delete_semantics (db : DB) (sid : String) (i : Int)
    (r : ServiceRecord)
    (hinv : ∀ r₀ ∈ db.services, 1 ≤ r₀.id ∧ r₀.id < db.nextId)
    (hparse : parseInt64 sid = some i)
    (hfound : db.findById i = some r) :
    (unregisterService db sid).result
      = .ok ⟨"Service unregistered successfully"⟩
    ∧ ((unregisterService db sid).db).findById i = none
    ∧ (unregisterService ((unregisterService db sid).db) sid).result
        = .error ⟨.notFound, "service not found"⟩
    ∧ (∀ (db₂ : DB) (sid₂ : String) (j : Int), parseInt64 sid₂ = some j →
        db₂.findById j = none →
        (unregisterService db₂ sid₂).result
          = .error ⟨.notFound, "service not found"⟩)
    ∧ (∀ ops : List ServerOp,
        (applyOps ((unregisterService db sid).db) ops).findById i = none) := by
  have h1 : (sid == "") = false := by
    cases hs : sid == "" with
    | false => rfl
    | true =>
        rw [eq_of_beq hs] at hparse
        exact Option.noConfusion hparse
  have hdel : db.deleteService i
      = .ok ⟨db.services.filter (fun r₀ => !(r₀.id == i)), db.nextId⟩ := by
    unfold DB.deleteService
    rw [hfound]
  have hcall : unregisterService db sid
      = ⟨.ok ⟨"Service unregistered successfully"⟩,
         ⟨db.services.filter (fun r₀ => !(r₀.id == i)), db.nextId⟩,
         [.delete]⟩ := by
    simp [unregisterService, h1, hparse, hdel]
  have habs : ∀ r₀ ∈ db.services.filter (fun r₀ => !(r₀.id == i)),
      r₀.id ≠ i := by
    intro r₀ hr₀
    have hmem := List.mem_filter.mp hr₀
    have hb := hmem.2
    simp only [Bool.not_eq_true', beq_eq_false_iff_ne, ne_eq] at hb
    exact hb
  have hlt : i < db.nextId := by
    have hfind : db.services.find? (fun r₀ => r₀.id == i) = some r := hfound
    have hmem := List.mem_of_find?_eq_some hfind
    have hid := List.find?_some hfind
    have hidEq : r.id = i := eq_of_beq hid
    have := (hinv r hmem).2
    omega
  have hnp : NotPresent i
      ⟨db.services.filter (fun r₀ => !(r₀.id == i)), db.nextId⟩ :=
    ⟨habs, hlt⟩
  have hnone : (⟨db.services.filter (fun r₀ => !(r₀.id == i)),
      db.nextId⟩ : DB).findById i = none := notPresent_findById hnp
  have hgen : ∀ (db₂ : DB) (sid₂ : String) (j : Int),
      parseInt64 sid₂ = some j → db₂.findById j = none →
      (unregisterService db₂ sid₂).result
        = .error ⟨.notFound, "service not found"⟩ := by
    intro db₂ sid₂ j hp hn
    have hs₂ : (sid₂ == "") = false := by
      cases hs : sid₂ == "" with
      | false => rfl
      | true =>
          rw [eq_of_beq hs] at hp
          exact Option.noConfusion hp
    have hd : db₂.deleteService j = .error "service not found" := by
      unfold DB.deleteService
      rw [hn]
    simp [unregisterService, hs₂, hp, hd]
  refine ⟨?_, ?_, ?_, hgen, ?_⟩
  · rw [hcall]
  · rw [hcall]
    exact hnone
  · rw [hcall]
    exact hgen _ sid i hparse hnone
  · intro ops
    rw [hcall]
    exact notPresent_findById (applyOps_notPresent i ops _ hnp)

/-- Witness for C9 at a one-record store, including a follow-up
registration after the delete. -/
theorem unregister_delete_semantics_witness :
    (unregisterService dbHttpSvc "1").result
      = .ok ⟨"Service unregistered successfully"⟩
    ∧ ((unregisterService dbHttpSvc "1").db).findById 1 = none
    ∧ (unregisterService ((unregisterService dbHttpSvc "1").db) "1").result
        = .error ⟨.notFound, "service not found"⟩
    ∧ (applyOps ((unregisterService dbHttpSvc "1").db)
        [ServerOp.register "x" "y" ApiServiceType.http 20,
         ServerOp.update "1" "healthy" "" ApiServiceType.http "" 21]).findById 1
      = none := by
  have h := unregister_delete_semantics dbHttpSvc "1" 1
    ⟨1, "svc", "ep", "SERVICE_TYPE_HTTP", "active", 5, 5, 5⟩
    (by decide) rfl rfl
  exact ⟨h.1, h.2.1, h.2.2.1, h.2.2.2.2 _⟩

end Watchdog
